import Mathlib

/-!
Verification of the SeasonFinder core (src/app.py).

The core classifies each of the 12 months of a temperature series into a
season, aggregates per-row season counts, scores the counts against a
user preference, and ranks rows by score.  Temperatures and thresholds
are modelled as rationals; a row is a `List ℚ` read at indices 0..11
(the code validates that exactly the columns T1..T12 are present, so the
aggregate path always works on 12 columns).
-/

inductive Season where
  | Winter
  | Spring
  | Summer
  | Autumn
  | Transition
deriving DecidableEq, Repr

/-- `season_label_for_month` from app.py: first-match classification of a
single Celsius temperature against the two thresholds. -/
def season_label_for_month (temp_c winter_c summer_c : ℚ) : Season :=
  if temp_c ≤ winter_c then Season.Winter
  else if temp_c ≥ summer_c then Season.Summer
  else Season.Transition

/-- `is_winter` row predicate: `T_c <= winter_thresh` (app.py line 87). -/
def is_winterB (wt t : ℚ) : Bool := decide (t ≤ wt)

/-- `is_summer` row predicate: `T_c >= summer_thresh` (app.py line 88). -/
def is_summerB (st t : ℚ) : Bool := decide (t ≥ st)

/-- `is_transition`: neither winter nor summer (app.py line 94). -/
def is_transitionB (wt st t : ℚ) : Bool := !is_winterB wt t && !is_summerB st t

/-- `delta = np.roll(T_c, -1, axis=1) - T_c` (app.py line 97): the
month-over-month change with December wrapping to January.  The code
always operates on the 12 columns T1..T12. -/
def deltaAt (T : List ℚ) (i : ℕ) : ℚ := T.getD ((i + 1) % 12) 0 - T.getD i 0

/-- `winter_len = is_winter.sum(axis=1)` (app.py line 90). -/
def winter_len (T : List ℚ) (wt : ℚ) : ℕ :=
  (List.range 12).countP (fun i => is_winterB wt (T.getD i 0))

/-- `summer_len = is_summer.sum(axis=1)` (app.py line 91). -/
def summer_len (T : List ℚ) (st : ℚ) : ℕ :=
  (List.range 12).countP (fun i => is_summerB st (T.getD i 0))

/-- `is_spring.sum(axis=1)`: transition months with positive delta
(app.py lines 100, 106). -/
def spring_len0 (T : List ℚ) (wt st : ℚ) : ℕ :=
  (List.range 12).countP
    (fun i => is_transitionB wt st (T.getD i 0) && decide (0 < deltaAt T i))

/-- `is_fall.sum(axis=1)`: transition months with negative delta
(app.py lines 101, 107). -/
def fall_len0 (T : List ℚ) (wt st : ℚ) : ℕ :=
  (List.range 12).countP
    (fun i => is_transitionB wt st (T.getD i 0) && decide (deltaAt T i < 0))

/-- `flat_len = is_flat.sum(axis=1)`: transition months with zero delta
(app.py lines 104, 110). -/
def flat_len (T : List ℚ) (wt st : ℚ) : ℕ :=
  (List.range 12).countP
    (fun i => is_transitionB wt st (T.getD i 0) && decide (deltaAt T i = 0))

/-- `spring_len = spring_len + flat_len // 2` (app.py line 111). -/
def spring_len (T : List ℚ) (wt st : ℚ) : ℕ :=
  spring_len0 T wt st + flat_len T wt st / 2

/-- `fall_len = fall_len + (flat_len - flat_len // 2)` (app.py line 112). -/
def fall_len (T : List ℚ) (wt st : ℚ) : ℕ :=
  fall_len0 T wt st + (flat_len T wt st - flat_len T wt st / 2)

/-- Number of months counted by both the winter and the summer test
(possible when the winter threshold is at least the summer threshold). -/
def both_len (T : List ℚ) (wt st : ℚ) : ℕ :=
  (List.range 12).countP
    (fun i => is_winterB wt (T.getD i 0) && is_summerB st (T.getD i 0))

/-- Coarse tri-state labels of the single-series path (app.py line 216). -/
def coarseLabels (temps : List ℚ) (wt st : ℚ) : List Season :=
  (List.range 12).map (fun i => season_label_for_month (temps.getD i 0) wt st)

/-- The circular delta sequence of the single-series path (app.py line 219). -/
def deltasList (temps : List ℚ) : List ℚ := (List.range 12).map (deltaAt temps)

/-- One iteration of the resolution loop (app.py lines 220-227): a
Transition month becomes Spring when its delta is positive, Autumn when
negative, and Spring on the zero-delta tie-break; Winter and Summer pass
through. -/
def resolveLabel (temps : List ℚ) (wt st : ℚ) (i : ℕ) : Season :=
  match season_label_for_month (temps.getD i 0) wt st with
  | Season.Transition =>
      if 0 < deltaAt temps i then Season.Spring
      else if deltaAt temps i < 0 then Season.Autumn
      else Season.Spring
  | l => l

/-- The final per-month label sequence of the single-series path. -/
def resolveLabels (temps : List ℚ) (wt st : ℚ) : List Season :=
  (List.range 12).map (resolveLabel temps wt st)

/-- Indicator of a Boolean, used to reason about `countP` sums. -/
def ind (b : Bool) : ℕ := if b then 1 else 0

lemma countP_five (l : List ℕ) (p q r1 r2 r3 b : ℕ → Bool)
    (h : ∀ i, ind (p i) + ind (q i) + ind (r1 i) + ind (r2 i) + ind (r3 i)
      = 1 + ind (b i)) :
    l.countP p + l.countP q + l.countP r1 + l.countP r2 + l.countP r3
      = l.length + l.countP b := by
  induction l with
  | nil => simp
  | cons x xs ih =>
    have hx := h x
    simp only [List.countP_cons, List.length_cons]
    cases hp : p x <;> cases hq : q x <;> cases h1 : r1 x <;> cases h2 : r2 x <;>
      cases h3 : r3 x <;> cases hb : b x <;>
      simp [hp, hq, h1, h2, h3, hb, ind] at hx ⊢ <;> omega

lemma month_pointwise (wt st t d : ℚ) :
    ind (is_winterB wt t) + ind (is_transitionB wt st t && decide (0 < d))
      + ind (is_summerB st t) + ind (is_transitionB wt st t && decide (d < 0))
      + ind (is_transitionB wt st t && decide (d = 0))
    = 1 + ind (is_winterB wt t && is_summerB st t) := by
  simp only [is_transitionB]
  cases hw : is_winterB wt t <;> cases hs : is_summerB st t <;>
      rcases lt_trichotomy 0 d with h | h | h <;>
    simp [ind, h, not_lt_of_lt, ne_of_gt, ne_of_lt, le_of_lt]

lemma counts_sum (T : List ℚ) (wt st : ℚ) :
    winter_len T wt + spring_len T wt st + summer_len T st + fall_len T wt st
      = 12 + both_len T wt st := by
  have h5 := countP_five (List.range 12)
    (fun i => is_winterB wt (T.getD i 0))
    (fun i => is_transitionB wt st (T.getD i 0) && decide (0 < deltaAt T i))
    (fun i => is_summerB st (T.getD i 0))
    (fun i => is_transitionB wt st (T.getD i 0) && decide (deltaAt T i < 0))
    (fun i => is_transitionB wt st (T.getD i 0) && decide (deltaAt T i = 0))
    (fun i => is_winterB wt (T.getD i 0) && is_summerB st (T.getD i 0))
    (fun i => month_pointwise wt st (T.getD i 0) (deltaAt T i))
  simp only [List.length_range] at h5
  unfold winter_len spring_len summer_len fall_len spring_len0 fall_len0 flat_len both_len
  omega

lemma both_len_eq_zero (T : List ℚ) (wt st : ℚ) (h : wt < st) :
    both_len T wt st = 0 := by
  unfold both_len
  rw [List.countP_eq_zero]
  intro i _
  simp only [is_winterB, is_summerB, Bool.and_eq_true, decide_eq_true_eq, ge_iff_le]
  rintro ⟨h1, h2⟩
  exact absurd (le_trans h2 h1) (not_le.mpr h)

/-- The concrete 12-month series of the spec's scenario 7. -/
def exSeries : List ℚ := [0, 0, 0, 10, 20, 25, 30, 28, 20, 10, 0, 0]

/-- C1 counterexample: in the degenerate configuration
winterThreshold = 20 ≥ summerThreshold = 5, a constant 10-degree series
satisfies both threshold tests in every month, and the four aggregate
counts sum to 24, not 12. -/
theorem claim_C1_counterexample :
    (List.replicate 12 (10 : ℚ)).length = 12 ∧
    winter_len (List.replicate 12 (10 : ℚ)) 20
        + spring_len (List.replicate 12 (10 : ℚ)) 20 5
        + summer_len (List.replicate 12 (10 : ℚ)) 5
        + fall_len (List.replicate 12 (10 : ℚ)) 20 5 ≠ 12 := by
  constructor
  · rfl
  · decide

/-- C1 (amended): for every 12-value temperature series, whenever
winterThreshold < summerThreshold the four per-row season counts of the
aggregate counting path sum to exactly 12; in the degenerate
configuration winterThreshold ≥ summerThreshold the sum instead exceeds
12 by the number of months counted by both threshold tests. -/
theorem claim_C1 (T : List ℚ) (wt st : ℚ) (_hT : T.length = 12) (h : wt < st) :
    winter_len T wt + spring_len T wt st + summer_len T st + fall_len T wt st
      = 12 := by
  have := counts_sum T wt st
  rw [both_len_eq_zero T wt st h] at this
  omega

/-- Witness for C1 (amended) at a concrete series and thresholds. -/
theorem claim_C1_witness :
    winter_len (List.replicate 12 (0 : ℚ)) 5
        + spring_len (List.replicate 12 (0 : ℚ)) 5 20
        + summer_len (List.replicate 12 (0 : ℚ)) 20
        + fall_len (List.replicate 12 (0 : ℚ)) 5 20 = 12 :=
  claim_C1 (List.replicate 12 (0 : ℚ)) 5 20 (by decide) (by norm_num)

/-- C2: in the aggregate counting path the winter and summer tests are
independent, so for every 12-value series the four counts sum to 12 plus
the number of months whose temperature satisfies both tests. -/
theorem claim_C2 (T : List ℚ) (wt st : ℚ) (_hT : T.length = 12) :
    winter_len T wt + spring_len T wt st + summer_len T st + fall_len T wt st
      = 12 + both_len T wt st :=
  counts_sum T wt st

/-- Witness for C2 at a series where every month satisfies both tests:
the sum is 12 + 12 = 24. -/
theorem claim_C2_witness :
    winter_len (List.replicate 12 (10 : ℚ)) 20
        + spring_len (List.replicate 12 (10 : ℚ)) 20 5
        + summer_len (List.replicate 12 (10 : ℚ)) 5
        + fall_len (List.replicate 12 (10 : ℚ)) 20 5
      = 12 + both_len (List.replicate 12 (10 : ℚ)) 20 5 :=
  claim_C2 (List.replicate 12 (10 : ℚ)) 20 5 (by decide)

/-- C3 counterexample: on the spec's scenario series with thresholds 5
and 20, the claimed coarse labels, final labels and counts are wrong:
months 4 and 8 have temperature 20, which the `>=` rule classifies as
coarse Summer, not Transition.  The conjunction of the claim's four
assertions is therefore false. -/
theorem claim_C3_counterexample :
    ¬(coarseLabels exSeries 5 20 =
        [Season.Winter, Season.Winter, Season.Winter, Season.Transition,
         Season.Transition, Season.Summer, Season.Summer, Season.Summer,
         Season.Transition, Season.Transition, Season.Winter, Season.Winter]
      ∧ deltasList exSeries = [0, 0, 10, 10, 5, 5, -2, -8, -10, -10, 0, 0]
      ∧ resolveLabels exSeries 5 20 =
        [Season.Winter, Season.Winter, Season.Winter, Season.Spring,
         Season.Spring, Season.Summer, Season.Summer, Season.Summer,
         Season.Autumn, Season.Autumn, Season.Winter, Season.Winter]
      ∧ winter_len exSeries 5 = 5 ∧ spring_len exSeries 5 20 = 2
      ∧ summer_len exSeries 20 = 3 ∧ fall_len exSeries 5 20 = 2) := by
  decide

/-- C3 (amended): on the series [0,0,0,10,20,25,30,28,20,10,0,0] with
winterThreshold=5 and summerThreshold=20, months 4 and 8 (temp 20) are
coarse Summer under the `>=` rule, so the coarse labels are
[W,W,W,Tr,S,S,S,S,S,Tr,W,W]; the circular deltas are as the claim
states; the resolved final labels are
[Winter,Winter,Winter,Spring,Summer,Summer,Summer,Summer,Summer,Autumn,Winter,Winter];
and the aggregate counts are winter=5, spring=1, summer=5, autumn=1. -/
theorem claim_C3 :
    coarseLabels exSeries 5 20 =
        [Season.Winter, Season.Winter, Season.Winter, Season.Transition,
         Season.Summer, Season.Summer, Season.Summer, Season.Summer,
         Season.Summer, Season.Transition, Season.Winter, Season.Winter]
      ∧ deltasList exSeries = [0, 0, 10, 10, 5, 5, -2, -8, -10, -10, 0, 0]
      ∧ resolveLabels exSeries 5 20 =
        [Season.Winter, Season.Winter, Season.Winter, Season.Spring,
         Season.Summer, Season.Summer, Season.Summer, Season.Summer,
         Season.Summer, Season.Autumn, Season.Winter, Season.Winter]
      ∧ winter_len exSeries 5 = 5 ∧ spring_len exSeries 5 20 = 1
      ∧ summer_len exSeries 20 = 5 ∧ fall_len exSeries 5 20 = 1 := by
  refine ⟨by decide, ?_, ?_, by decide, ?_, by decide, ?_⟩
  · norm_num [deltasList, deltaAt, exSeries, List.range_succ]
  · norm_num [resolveLabels, resolveLabel, season_label_for_month, deltaAt,
      exSeries, List.range_succ]
  · norm_num [spring_len, spring_len0, flat_len, is_transitionB, is_winterB,
      is_summerB, deltaAt, exSeries, List.range_succ, List.countP_append,
      List.countP_cons]
  · norm_num [fall_len, fall_len0, flat_len, is_transitionB, is_winterB,
      is_summerB, deltaAt, exSeries, List.range_succ, List.countP_append,
      List.countP_cons]

lemma resolveLabels_getD (T : List ℚ) (wt st : ℚ) (i : ℕ) (hi : i < 12)
    (d : Season) : (resolveLabels T wt st).getD i d = resolveLabel T wt st i := by
  unfold resolveLabels
  simp [List.getD_eq_getElem?_getD, List.getElem?_map, List.getElem?_range, hi]

/-- A constant all-transition series used as a witness input. -/
def flatSeries : List ℚ := [10, 10, 10, 10, 10, 10, 10, 10, 10, 10, 10, 10]

/-- C4: the two call sites disagree on zero-delta Transition months: the
aggregate path adds `flat/2` of a row's flat months to Spring and the
remaining `flat - flat/2` to Autumn (an exhaustive split), while the
single-series label path resolves every zero-delta Transition month to
Spring. -/
theorem claim_C4 (T : List ℚ) (wt st : ℚ) (_hT : T.length = 12) :
    (spring_len T wt st = spring_len0 T wt st + flat_len T wt st / 2
      ∧ fall_len T wt st
          = fall_len0 T wt st + (flat_len T wt st - flat_len T wt st / 2)
      ∧ flat_len T wt st / 2 + (flat_len T wt st - flat_len T wt st / 2)
          = flat_len T wt st)
    ∧ ∀ i, i < 12 →
        season_label_for_month (T.getD i 0) wt st = Season.Transition →
        deltaAt T i = 0 →
        (resolveLabels T wt st).getD i Season.Winter = Season.Spring := by
  refine ⟨⟨rfl, rfl, by omega⟩, ?_⟩
  intro i hi hc hd
  rw [resolveLabels_getD T wt st i hi]
  unfold resolveLabel
  rw [hc, hd]
  simp

/-- Witness for C4 on a constant series: every month is a flat
Transition month, the aggregate path splits them 6/6, and the label path
resolves month 0 to Spring. -/
theorem claim_C4_witness :
    (resolveLabels flatSeries 5 20).getD 0 Season.Winter = Season.Spring ∧
    spring_len flatSeries 5 20 = spring_len0 flatSeries 5 20 + flat_len flatSeries 5 20 / 2 :=
  ⟨(claim_C4 flatSeries 5 20 (by decide)).2 0 (by decide) (by decide)
      (by norm_num [deltaAt, flatSeries]),
   (claim_C4 flatSeries 5 20 (by decide)).1.1⟩

/-- C5: `season_label_for_month` is total with first-match precedence:
Winter exactly when temp ≤ winterThreshold, Summer exactly when the
temperature is above the winter threshold and at least the summer
threshold, Transition exactly when strictly between; with equal
thresholds and a temperature equal to both, rule 1 wins and the label is
Winter. -/
theorem claim_C5 (t wt st : ℚ) :
    (season_label_for_month t wt st = Season.Winter ↔ t ≤ wt)
    ∧ (season_label_for_month t wt st = Season.Summer ↔ wt < t ∧ st ≤ t)
    ∧ (season_label_for_month t wt st = Season.Transition ↔ wt < t ∧ t < st)
    ∧ (wt = st → t = wt → season_label_for_month t wt st = Season.Winter) := by
  unfold season_label_for_month
  split_ifs with h1 h2
  · exact ⟨by simp [h1], by simp [not_lt.mpr h1], by simp [not_lt.mpr h1],
      fun _ _ => rfl⟩
  · refine ⟨by simp [h1], by simp [not_le.mp h1, ge_iff_le.mp h2],
      by simp [not_lt.mpr (ge_iff_le.mp h2)], ?_⟩
    intro _ ht
    exact absurd (le_of_eq ht) h1
  · refine ⟨by simp [h1], ?_, by simp [not_le.mp h1, not_le.mp h2], ?_⟩
    · simp only [ge_iff_le, not_le] at h2
      simp [not_le.mpr h2]
    · intro _ ht
      exact absurd (le_of_eq ht) h1

/-- Witness for C5: with both thresholds equal to the temperature, rule 1
precedence yields Winter. -/
theorem claim_C5_witness : season_label_for_month 5 5 5 = Season.Winter :=
  (claim_C5 5 5 5).2.2.2 rfl rfl

/-- C6: the resolving delta is the circular successor difference
`temp[(i+1) % 12] - temp[i]`, a Transition month with positive delta
resolves to Spring, one with negative delta resolves to Autumn, and
Winter and Summer coarse labels pass through unchanged. -/
theorem claim_C6 (T : List ℚ) (wt st : ℚ) (_hT : T.length = 12) (i : ℕ)
    (hi : i < 12) :
    deltaAt T i = T.getD ((i + 1) % 12) 0 - T.getD i 0
    ∧ (season_label_for_month (T.getD i 0) wt st = Season.Transition →
        0 < deltaAt T i →
        (resolveLabels T wt st).getD i Season.Winter = Season.Spring)
    ∧ (season_label_for_month (T.getD i 0) wt st = Season.Transition →
        deltaAt T i < 0 →
        (resolveLabels T wt st).getD i Season.Winter = Season.Autumn)
    ∧ (season_label_for_month (T.getD i 0) wt st = Season.Winter →
        (resolveLabels T wt st).getD i Season.Winter = Season.Winter)
    ∧ (season_label_for_month (T.getD i 0) wt st = Season.Summer →
        (resolveLabels T wt st).getD i Season.Winter = Season.Summer) := by
  rw [resolveLabels_getD T wt st i hi]
  refine ⟨rfl, ?_, ?_, ?_, ?_⟩ <;> intro hc <;> unfold resolveLabel <;> rw [hc]
  · intro hd
    simp [hd]
  · intro hd
    simp [hd, lt_asymm hd]

/-- Witness for C6 at the scenario series: month 3 is Transition with
delta 10 > 0 and resolves to Spring. -/
theorem claim_C6_witness :
    (resolveLabels exSeries 5 20).getD 3 Season.Winter = Season.Spring :=
  (claim_C6 exSeries 5 20 (by decide) 3 (by decide)).2.1 (by decide)
    (by norm_num [deltaAt, exSeries])

/-- C10: the single-series resolution loop leaves no Transition label:
every final label is one of the four seasons. -/
theorem claim_C10 (T : List ℚ) (wt st : ℚ) (_hT : T.length = 12) :
    ∀ l ∈ resolveLabels T wt st,
      l = Season.Winter ∨ l = Season.Spring ∨ l = Season.Summer
        ∨ l = Season.Autumn := by
  intro l hl
  unfold resolveLabels at hl
  rcases List.mem_map.mp hl with ⟨i, _, rfl⟩
  unfold resolveLabel
  rcases hc : season_label_for_month (T.getD i 0) wt st <;> simp only [hc]
  · simp
  · simp
  · simp
  · simp
  · split_ifs <;> simp

/-- Witness for C10 on an all-winter series. -/
theorem claim_C10_witness :
    Season.Winter = Season.Winter ∨ Season.Winter = Season.Spring
      ∨ Season.Winter = Season.Summer ∨ Season.Winter = Season.Autumn :=
  claim_C10 (List.replicate 12 (0 : ℚ)) 5 20 (by decide) Season.Winter
    (by decide)

/-- `score` (app.py lines 115-120): the L1 distance between the four
season counts and the four preferred counts. -/
def score (cw csp csu cfa pw psp psu pfa : ℤ) : ℤ :=
  |cw - pw| + |csp - psp| + |csu - psu| + |cfa - pfa|

/-- `max_score = 48` (app.py line 131). -/
def max_score : ℤ := 48

/-- `.clip(0, 100)` (app.py line 146). -/
def clip0100 (x : ℚ) : ℚ := min (max x 0) 100

/-- `.round(1)` (app.py line 146): round to one decimal place. -/
def round1 (x : ℚ) : ℚ := (round (x * 10) : ℤ) / 10

/-- `Match %` (app.py lines 137 and 146): the adjusted score
`max_score - raw` as a percentage of `max_score`, clipped to [0,100] and
rounded to one decimal place. -/
def matchPercent (s : ℤ) : ℚ :=
  round1 (clip0100 (((max_score - s : ℤ) : ℚ) / (max_score : ℚ) * 100))

lemma round1_mono {x y : ℚ} (h : x ≤ y) : round1 x ≤ round1 y := by
  unfold round1
  have h10 : round (x * 10) ≤ round (y * 10) := by
    rw [round_eq, round_eq]
    exact Int.floor_mono (by linarith)
  have h11 : ((round (x * 10) : ℤ) : ℚ) ≤ ((round (y * 10) : ℤ) : ℚ) :=
    Int.cast_le.mpr h10
  exact (div_le_div_iff_of_pos_right (by norm_num)).mpr h11

lemma clip0100_mono {x y : ℚ} (h : x ≤ y) : clip0100 x ≤ clip0100 y :=
  min_le_min (max_le_max h le_rfl) le_rfl

lemma matchPercent_anti {s t : ℤ} (h : s ≤ t) :
    matchPercent t ≤ matchPercent s := by
  unfold matchPercent
  apply round1_mono
  apply clip0100_mono
  have h1 : ((max_score - t : ℤ) : ℚ) ≤ ((max_score - s : ℤ) : ℚ) := by
    have : (max_score - t : ℤ) ≤ (max_score - s : ℤ) := by omega
    exact_mod_cast this
  have h2 : ((max_score - t : ℤ) : ℚ) / (max_score : ℚ)
      ≤ ((max_score - s : ℤ) : ℚ) / (max_score : ℚ) := by
    apply (div_le_div_iff_of_pos_right ?_).mpr h1
    norm_num [max_score]
  exact mul_le_mul_of_nonneg_right h2 (by norm_num)

lemma matchPercent_of_ge {s : ℤ} (h : 48 ≤ s) : matchPercent s = 0 := by
  unfold matchPercent max_score
  have hnum : ((48 - s : ℤ) : ℚ) ≤ 0 := by
    have : (48 - s : ℤ) ≤ 0 := by omega
    exact_mod_cast this
  have hx : ((48 - s : ℤ) : ℚ) / ((48 : ℤ) : ℚ) * 100 ≤ 0 := by
    apply mul_nonpos_of_nonpos_of_nonneg
    · exact div_nonpos_of_nonpos_of_nonneg hnum (by norm_num)
    · norm_num
  unfold clip0100
  rw [max_eq_right hx, min_eq_left (by norm_num)]
  simp [round1]

/-- C7: score is the sum of the four absolute per-season deviations, and
when the counts and preferences are each four integers in [0,12] summing
to 12, the score lies within [0, 48]. -/
theorem claim_C7 (cw csp csu cfa pw psp psu pfa : ℤ) :
    score cw csp csu cfa pw psp psu pfa
        = |cw - pw| + |csp - psp| + |csu - psu| + |cfa - pfa|
    ∧ ((0 ≤ cw ∧ cw ≤ 12 ∧ 0 ≤ csp ∧ csp ≤ 12 ∧ 0 ≤ csu ∧ csu ≤ 12
          ∧ 0 ≤ cfa ∧ cfa ≤ 12 ∧ cw + csp + csu + cfa = 12) →
        (0 ≤ pw ∧ pw ≤ 12 ∧ 0 ≤ psp ∧ psp ≤ 12 ∧ 0 ≤ psu ∧ psu ≤ 12
          ∧ 0 ≤ pfa ∧ pfa ≤ 12 ∧ pw + psp + psu + pfa = 12) →
        0 ≤ score cw csp csu cfa pw psp psu pfa
          ∧ score cw csp csu cfa pw psp psu pfa ≤ 48) := by
  refine ⟨rfl, ?_⟩
  rintro ⟨hc1, hc2, hc3, hc4, hc5, hc6, hc7, hc8, _⟩
    ⟨hp1, hp2, hp3, hp4, hp5, hp6, hp7, hp8, _⟩
  unfold score
  have a1 : |cw - pw| ≤ 12 := abs_le.mpr ⟨by omega, by omega⟩
  have a2 : |csp - psp| ≤ 12 := abs_le.mpr ⟨by omega, by omega⟩
  have a3 : |csu - psu| ≤ 12 := abs_le.mpr ⟨by omega, by omega⟩
  have a4 : |cfa - pfa| ≤ 12 := abs_le.mpr ⟨by omega, by omega⟩
  constructor
  · positivity
  · linarith

/-- Witness for C7: the spec's scenario 9 inputs give a score in range
(It equals 24 there.) -/
theorem claim_C7_witness :
    0 ≤ score 12 0 0 0 0 4 4 4 ∧ score 12 0 0 0 0 4 4 4 ≤ 48 :=
  (claim_C7 12 0 0 0 0 4 4 4).2 (by norm_num) (by norm_num)

/-- C8: the match percentage is the clipped, rounded percentage of the
adjusted score; it is antitone in the raw score, equals 100.0 at score 0
and equals 0.0 at every score ≥ 48. -/
theorem claim_C8 :
    (∀ s : ℤ, matchPercent s
        = round1 (clip0100 (((max_score - s : ℤ) : ℚ) / (max_score : ℚ) * 100)))
    ∧ (∀ s t : ℤ, s ≤ t → matchPercent t ≤ matchPercent s)
    ∧ matchPercent 0 = 100
    ∧ ∀ s : ℤ, 48 ≤ s → matchPercent s = 0 := by
  refine ⟨fun s => rfl, fun s t h => matchPercent_anti h, ?_, fun s h => matchPercent_of_ge h⟩
  unfold matchPercent max_score clip0100 round1
  norm_num

/-- Insertion step of the model of
`sort_values("Score", ascending=False)` (app.py line 140): entries are
ordered by descending adjusted score `max_score - raw`.  The source
relies on an unspecified tie order, so any order among equal scores
realizes it. -/
def insertByAdj (x : ℤ) : List ℤ → List ℤ
  | [] => [x]
  | y :: ys =>
      if max_score - y ≤ max_score - x then x :: y :: ys
      else y :: insertByAdj x ys

/-- The sorted raw-score column of `out_sorted`. -/
def sortByAdjDesc (l : List ℤ) : List ℤ := l.foldr insertByAdj []

/-- `out_sorted["Rank"] = np.arange(1, len(out_sorted) + 1)` (app.py
line 143): pair each sorted entry with its 1-based position. -/
def rankEntries (scores : List ℤ) : List (ℕ × ℤ) :=
  ((List.range (sortByAdjDesc scores).length).map (fun i => i + 1)).zip
    (sortByAdjDesc scores)

lemma insertByAdj_perm (x : ℤ) (l : List ℤ) :
    List.Perm (insertByAdj x l) (x :: l) := by
  induction l with
  | nil => exact List.Perm.refl _
  | cons y ys ih =>
    unfold insertByAdj
    split_ifs
    · exact List.Perm.refl _
    · exact (List.Perm.cons y ih).trans (List.Perm.swap x y ys)

lemma sortByAdjDesc_perm (l : List ℤ) : List.Perm (sortByAdjDesc l) l := by
  induction l with
  | nil => exact List.Perm.refl _
  | cons x xs ih =>
    simp only [sortByAdjDesc, List.foldr_cons] at *
    exact (insertByAdj_perm x _).trans (List.Perm.cons x ih)

lemma insertByAdj_sorted {x : ℤ} {l : List ℤ}
    (h : l.Pairwise (fun a b => a ≤ b)) :
    (insertByAdj x l).Pairwise (fun a b => a ≤ b) := by
  induction l with
  | nil => simp [insertByAdj]
  | cons y ys ih =>
    rw [List.pairwise_cons] at h
    obtain ⟨hy, hys⟩ := h
    unfold insertByAdj
    split_ifs with hcmp
    · have hxy : x ≤ y := by omega
      refine List.pairwise_cons.mpr ⟨?_, List.pairwise_cons.mpr ⟨hy, hys⟩⟩
      intro b hb
      rcases List.mem_cons.mp hb with rfl | hb2
      · exact hxy
      · exact le_trans hxy (hy b hb2)
    · have hyx : y ≤ x := by omega
      refine List.pairwise_cons.mpr ⟨?_, ih hys⟩
      intro b hb
      have hb3 : b = x ∨ b ∈ ys := by
        have := (insertByAdj_perm x ys).mem_iff.mp hb
        simpa using this
      rcases hb3 with rfl | hb4
      · exact hyx
      · exact hy b hb4

lemma sortByAdjDesc_sorted (l : List ℤ) :
    (sortByAdjDesc l).Pairwise (fun a b => a ≤ b) := by
  induction l with
  | nil => simp [sortByAdjDesc]
  | cons x xs ih =>
    simp only [sortByAdjDesc, List.foldr_cons] at *
    exact insertByAdj_sorted ih

/-- C9: ranking N scored entries yields the entries sorted by
non-decreasing raw score (equivalently non-increasing match percent),
as a permutation of the input, with ranks exactly 1..N assigned in
order, and the empty collection yields the empty output. -/
theorem claim_C9 (scores : List ℤ) :
    (rankEntries scores).map Prod.fst
        = (List.range scores.length).map (fun i => i + 1)
    ∧ List.Perm ((rankEntries scores).map Prod.snd) scores
    ∧ ((rankEntries scores).map Prod.snd).Pairwise (fun a b => a ≤ b)
    ∧ (((rankEntries scores).map Prod.snd).map matchPercent).Pairwise
        (fun a b => b ≤ a)
    ∧ rankEntries ([] : List ℤ) = [] := by
  have hlen : (sortByAdjDesc scores).length = scores.length :=
    (sortByAdjDesc_perm scores).length_eq
  have hrl : ((List.range (sortByAdjDesc scores).length).map
      (fun i => i + 1)).length = (sortByAdjDesc scores).length := by
    simp
  have hfst : (rankEntries scores).map Prod.fst
      = (List.range (sortByAdjDesc scores).length).map (fun i => i + 1) :=
    List.map_fst_zip _ _ (le_of_eq hrl)
  have hsnd : (rankEntries scores).map Prod.snd = sortByAdjDesc scores :=
    List.map_snd_zip _ _ (ge_of_eq hrl)
  refine ⟨?_, ?_, ?_, ?_, rfl⟩
  · rw [hfst, hlen]
  · rw [hsnd]
    exact sortByAdjDesc_perm scores
  · rw [hsnd]
    exact sortByAdjDesc_sorted scores
  · rw [hsnd]
    exact List.pairwise_map.mpr
      ((sortByAdjDesc_sorted scores).imp fun hab => matchPercent_anti hab)

/-- Witness for C8: antitone between scores 0 and 24, and zero at 48. -/
theorem claim_C8_witness : matchPercent 24 ≤ matchPercent 0 ∧ matchPercent 48 = 0 :=
  ⟨claim_C8.2.1 0 24 (by norm_num), claim_C8.2.2.2 48 le_rfl⟩
